import Mathlib

/-!
Formal model of the authentication and access-control core of the gong-mcp
service, shallowly embedded from the Python sources.

Conventions used throughout:
  - wall-clock instants are integers counting seconds (datetime values and
    redis TTLs are expressed on this one axis); `timedelta(days=d)` is
    `d * 86400` seconds, and the `.days` field of a timedelta is the floored
    quotient by 86400, matching the normalisation Python performs;
  - database tables are Lean lists of rows, and a SQL query is the
    corresponding list computation; `count(distinct c)` is the length of the
    deduplicated list of values;
  - a Python function that mutates rows is a Lean function returning the
    updated rows; a function that can raise on the modelled path returns an
    Option, with `none` for the raised exception.
-/

namespace GongMCP

/-- Python integer floor division, as used by timedelta normalisation. -/
def pyFloorDiv (a b : Int) : Int := Int.fdiv a b

/-- The `.days` field of a Python timedelta holding `delta` seconds. -/
def timedeltaDays (delta : Int) : Int := pyFloorDiv delta 86400

/-! ### Calendar rendering, modelling `strftime("%Y-%m-%d %H:%M")`

The civil-from-days conversion follows the standard Gregorian algorithm used
by datetime for dates in the proleptic calendar. -/

/-- Convert a day count (days since 1970-01-01) to a civil (year, month, day). -/
def civilFromDays (z0 : Int) : Int × Int × Int :=
  let z := z0 + 719468
  let era := pyFloorDiv z 146097
  let doe := z - era * 146097
  let yoe := pyFloorDiv (doe - pyFloorDiv doe 1460 + pyFloorDiv doe 36524 - pyFloorDiv doe 146096) 365
  let y := yoe + era * 400
  let doy := doe - (365 * yoe + pyFloorDiv yoe 4 - pyFloorDiv yoe 100)
  let mp := pyFloorDiv (5 * doy + 2) 153
  let d := doy - pyFloorDiv (153 * mp + 2) 5 + 1
  let m := mp + (if mp < 10 then 3 else -9)
  (y + (if m ≤ 2 then 1 else 0), m, d)

/-- Zero-pad a nonnegative calendar component to two digits. -/
def pad2 (n : Int) : String :=
  if n < 10 then "0" ++ toString n else toString n

/-- Render an instant (seconds since epoch) as `%Y-%m-%d %H:%M`. -/
def formatTimestamp (t : Int) : String :=
  let days := pyFloorDiv t 86400
  let secs := t - 86400 * days
  let ymd := civilFromDays days
  let hh := pyFloorDiv secs 3600
  let mi := pyFloorDiv (secs % 3600) 60
  toString ymd.1 ++ "-" ++ pad2 ymd.2.1 ++ "-" ++ pad2 ymd.2.2 ++ " " ++ pad2 hh ++ ":" ++ pad2 mi

/-! ### String primitives

The Python string methods used by the sources, restated over the character
list of the string so that every definition evaluates by kernel reduction. -/

/-- `s.endswith(suffix)`. -/
def pyEndsWith (s suffix : String) : Bool := suffix.toList.isSuffixOf s.toList

/-- `s.startswith(pre)`. -/
def pyStartsWith (s pre : String) : Bool := pre.toList.isPrefixOf s.toList

/-- `s.upper()` (the sources only upper-case ASCII tier names). -/
def pyUpper (s : String) : String := String.mk (s.toList.map Char.toUpper)

/-- Worker for `pyReplace`: replace left-to-right, non-overlapping; the fuel
is the length of the subject and bounds the recursion. -/
def pyReplaceGo (pat repl : List Char) : Nat → List Char → List Char
  | _, [] => []
  | 0, l => l
  | fuel + 1, c :: rest =>
    if pat.isPrefixOf (c :: rest) && !pat.isEmpty then
      repl ++ pyReplaceGo pat repl fuel (rest.drop (pat.length - 1))
    else
      c :: pyReplaceGo pat repl fuel rest

/-- `s.replace(pat, repl)` for a nonempty pattern. -/
def pyReplace (s pat repl : String) : String :=
  String.mk (pyReplaceGo pat.toList repl.toList s.toList.length s.toList)

/-! ### Tier tables, from `app/constants.py` -/

/-- One row of `TIER_TIME_LIMITS`: window limit and window length in days. -/
structure TierTimeConfig where
  limit : Nat
  days : Nat
  deriving Repr, DecidableEq

/-- `TIER_TIME_LIMITS`; indexing a missing key raises, hence the Option. -/
def TIER_TIME_LIMITS (tier : String) : Option TierTimeConfig :=
  if tier = "FREE" then some ⟨30, 7⟩
  else if tier = "TRIAL" then some ⟨30, 7⟩
  else if tier = "STUDENT" then some ⟨30, 7⟩
  else if tier = "ENTERPRISE" then some ⟨30, 7⟩
  else none

/-- `TIER_TOTAL_LIMITS` as a finite lookup table. -/
def TIER_TOTAL_LIMITS (tier : String) : Option Nat :=
  if tier = "FREE" then some 100
  else if tier = "TRIAL" then some 100
  else if tier = "STUDENT" then some 100
  else if tier = "ENTERPRISE" then some 100
  else none

/-- `TIER_TOTAL_LIMITS.get(key, default)`. -/
def tierTotalLimitsGet (tier : String) (dflt : Nat) : Nat :=
  (TIER_TOTAL_LIMITS tier).getD dflt

/-! ### Quota data model, from `app/models/security.py` -/

/-- `UserStatusEnum`; FREE is the unblocked (spec: ACTIVE) status. -/
inductive UserStatusEnum where
  | FREE
  | BLOCKED
  deriving Repr, DecidableEq

/-- One `mcp_user` row. -/
structure MCPUser where
  id : Nat
  email : String
  tier : String
  total_limit : Nat
  status : UserStatusEnum
  created_at : Int
  unblocked_at : Int
  blocked_at : Int
  deriving Repr, DecidableEq

/-- One `mcp_user_activity` row (the surrogate primary key is omitted; the
service only ever tests row existence and aggregates over the other columns). -/
structure MCPUserActivity where
  user_id : Nat
  accessed_company : Int
  timestamp : Int
  deriving Repr, DecidableEq

/-! ### MCPSecurityService, from `app/services/security.py` -/

/-- The values of `accessed_company` for the rows of one user. -/
def companiesOf (log : List MCPUserActivity) (uid : Nat) : List Int :=
  (log.filter (fun a => a.user_id = uid)).map (fun a => a.accessed_company)

/-- `count(distinct ...)` over a column rendered as a list. -/
def countDistinct (l : List Int) : Nat := l.dedup.length

/-- Lifetime distinct-resource count of a user. -/
def countDistinctAccessed (log : List MCPUserActivity) (uid : Nat) : Nat :=
  countDistinct (companiesOf log uid)

/-- `MCPSecurityService.is_total_limit_reached`. -/
def is_total_limit_reached (log : List MCPUserActivity) (user : MCPUser) : Bool :=
  user.total_limit ≤ countDistinctAccessed log user.id

/-- `MCPSecurityService._already_accessed_company`. -/
def already_accessed_company (log : List MCPUserActivity) (user_id : Nat) (company_id : Int) : Bool :=
  log.any (fun a => a.user_id = user_id && a.accessed_company = company_id)

/-- `MCPSecurityService._is_limit_reached`: distinct companies with a log
timestamp at or after `max(unblock_time, now - days)`, compared to the window
limit. The query has no upper time bound. -/
def is_limit_reached (log : List MCPUserActivity) (user_id : Nat) (unblock_time : Int)
    (days limit : Nat) (now : Int) : Bool :=
  let window_start := max unblock_time (now - (days : Int) * 86400)
  limit ≤ countDistinct ((log.filter
    (fun a => a.user_id = user_id && window_start ≤ a.timestamp)).map
      (fun a => a.accessed_company))

/-- `MCPSecurityService._should_auto_unblock`. -/
def should_auto_unblock (user : MCPUser) (days : Nat) (now : Int) : Bool :=
  user.status = UserStatusEnum.BLOCKED && (days : Int) ≤ timedeltaDays (now - user.unblocked_at)

/-- `MCPSecurityService._unblock_user`. -/
def unblock_user (user : MCPUser) (now : Int) : MCPUser :=
  { user with status := UserStatusEnum.FREE, unblocked_at := now }

/-- `MCPSecurityService._block_user`. -/
def block_user (user : MCPUser) (now : Int) : MCPUser :=
  { user with status := UserStatusEnum.BLOCKED, blocked_at := now }

/-- The denial message rendered from the computed unblock instant. -/
def blockedMessage (unblockTime : Int) : String :=
  "User is blocked. Limit will be reset automatically at " ++ formatTimestamp unblockTime ++ " UTC."

/-- Outcome of one `access_control` call: the (possibly updated) user row, the
(possibly extended) activity table, and the returned pair. -/
structure AccessResult where
  user : MCPUser
  log : List MCPUserActivity
  allowed : Bool
  message : String
  deriving Repr, DecidableEq

/-- `MCPSecurityService.access_control`; `none` is the KeyError raised when
the tier of the user has no `TIER_TIME_LIMITS` row. -/
def access_control (user : MCPUser) (log : List MCPUserActivity) (company_id : Int)
    (now : Int) : Option AccessResult :=
  match TIER_TIME_LIMITS user.tier with
  | none => none
  | some cfg =>
    let limit := cfg.limit
    let days := cfg.days
    if pyEndsWith user.email "@daloopa.com" then
      some ⟨user, log, true, "Access granted for internal Daloopa users."⟩
    else if is_total_limit_reached log user then
      some ⟨user, log, false, "Total limit reached for the user."⟩
    else
      let user := if should_auto_unblock user days now then unblock_user user now else user
      if already_accessed_company log user.id company_id then
        some ⟨user, log, true, ""⟩
      else if user.status = UserStatusEnum.BLOCKED then
        some ⟨user, log, false, blockedMessage (user.unblocked_at + (days : Int) * 86400)⟩
      else if is_limit_reached log user.id user.unblocked_at days limit now then
        some ⟨block_user user now, log, false,
          blockedMessage (user.unblocked_at + (days : Int) * 86400)⟩
      else
        some ⟨user, log ++ [⟨user.id, company_id, now⟩], true, ""⟩

/-- `MCPSecurityService._get_mcp_user` (emails are unique, so the first match
is the single match). -/
def get_mcp_user (users : List MCPUser) (email : String) : Option MCPUser :=
  users.find? (fun u => u.email = email)

/-- `MCPSecurityService._create_mcp_user`. The commit raises IntegrityError
exactly when the unique email constraint is violated by an already committed
row; the service then rolls back and returns None (modelled as `none`,
leaving the table unchanged). -/
def create_mcp_user (users : List MCPUser) (email tier : String) (now : Int)
    (newId : Nat) : List MCPUser × Option MCPUser :=
  let user : MCPUser :=
    { id := newId
      email := email
      tier := pyUpper tier
      total_limit := tierTotalLimitsGet (pyUpper tier) 10
      status := UserStatusEnum.FREE
      created_at := now
      unblocked_at := now
      blocked_at := now }
  if users.any (fun u => u.email = email) then (users, none)
  else (users ++ [user], some user)

/-- `MCPSecurityService.get_or_create_mcp_user`. `interleaved` holds the rows
committed by concurrent requests between the SELECT and the INSERT commit:
the lookup sees `users0`, the insert commits against `users0 ++ interleaved`. -/
def get_or_create_mcp_user (users0 interleaved : List MCPUser) (email tier : String)
    (now : Int) (newId : Nat) : List MCPUser × Option MCPUser :=
  match get_mcp_user users0 email with
  | some u => (users0 ++ interleaved, some u)
  | none => create_mcp_user (users0 ++ interleaved) email tier now newId

/-- Sequentially run `access_control` on a list of company ids at one instant,
threading the user row and activity table; the Bool is the conjunction of the
returned allow flags. Propagates a raised KeyError as `none`. -/
def runAll (user : MCPUser) (log : List MCPUserActivity) (cids : List Int) (now : Int) :
    Option (MCPUser × List MCPUserActivity × Bool) :=
  match cids with
  | [] => some (user, log, true)
  | c :: cs =>
    match access_control user log c now with
    | none => none
    | some r =>
      match runAll r.user r.log cs now with
      | none => none
      | some (u, l, b) => some (u, l, r.allowed && b)

/-! ### UserService.get_user_tier, from `app/services/user.py`

The loop writes `user_type` only when a group name matches; after a loop with
no match the variable is unbound and the comparison raises UnboundLocalError,
modelled as `none`. When several groups match, the last assignment wins. -/

/-- The fallback tier set in `UserService.__init__`. -/
def default_tier : String := "enterprise"

/-- `UserService.get_user_tier`, as a function of the group-name list of the
user (`none` input: no such user). Output `none` models the UnboundLocalError
raised when the user exists but no group name starts with `user_type:`. -/
def get_user_tier (userGroups : Option (List String)) : Option String :=
  match userGroups with
  | none => some default_tier
  | some groups =>
    match (groups.filter (fun g => pyStartsWith g "user_type:")).getLast? with
    | none => none
    | some g =>
      let user_type := pyReplace g "user_type:" ""
      some (if user_type = "enterprise_trial" then "trial"
        else if user_type = "student" then "student"
        else if user_type = "free" then "free"
        else default_tier)

/-! ### SHA-256 over byte lists, for the PKCE challenge check

Words are naturals reduced mod 2^32; the bitwise operations are folds over
the 32 bit positions so that everything evaluates by kernel reduction. -/

/-- Combine `k` low bits of two naturals with a bit-level operation. -/
def bitfoldGo (f : Nat → Nat → Nat) : Nat → Nat → Nat → Nat
  | 0, _, _ => 0
  | k + 1, x, y => f (x % 2) (y % 2) + 2 * bitfoldGo f k (x / 2) (y / 2)

/-- 32-bit bitwise xor. -/
def xor32 (x y : Nat) : Nat := bitfoldGo (fun a b => (a + b) % 2) 32 x y

/-- 32-bit bitwise and. -/
def and32 (x y : Nat) : Nat := bitfoldGo (fun a b => a * b) 32 x y

/-- 32-bit bitwise complement. -/
def not32 (x : Nat) : Nat := 4294967295 - x % 4294967296

/-- Addition mod 2^32. -/
def add32 (x y : Nat) : Nat := (x + y) % 4294967296

/-- Rotate a 32-bit word right by `n`. -/
def rotr32 (n x : Nat) : Nat := x % 4294967296 / 2 ^ n + x % 2 ^ n * 2 ^ (32 - n)

/-- Logical right shift of a 32-bit word. -/
def shr32 (n x : Nat) : Nat := x % 4294967296 / 2 ^ n

/-- SHA-256 big sigma 0. -/
def bsig0 (x : Nat) : Nat := xor32 (xor32 (rotr32 2 x) (rotr32 13 x)) (rotr32 22 x)

/-- SHA-256 big sigma 1. -/
def bsig1 (x : Nat) : Nat := xor32 (xor32 (rotr32 6 x) (rotr32 11 x)) (rotr32 25 x)

/-- SHA-256 small sigma 0. -/
def ssig0 (x : Nat) : Nat := xor32 (xor32 (rotr32 7 x) (rotr32 18 x)) (shr32 3 x)

/-- SHA-256 small sigma 1. -/
def ssig1 (x : Nat) : Nat := xor32 (xor32 (rotr32 17 x) (rotr32 19 x)) (shr32 10 x)

/-- SHA-256 choose. -/
def chf (e f g : Nat) : Nat := xor32 (and32 e f) (and32 (not32 e) g)

/-- SHA-256 majority. -/
def majf (a b c : Nat) : Nat := xor32 (xor32 (and32 a b) (and32 a c)) (and32 b c)

/-- The 64 SHA-256 round constants. -/
def shaK : List Nat :=
  [1116352408, 1899447441, 3049323471, 3921009573,
   961987163, 1508970993, 2453635748, 2870763221,
   3624381080, 310598401, 607225278, 1426881987,
   1925078388, 2162078206, 2614888103, 3248222580,
   3835390401, 4022224774, 264347078, 604807628,
   770255983, 1249150122, 1555081692, 1996064986,
   2554220882, 2821834349, 2952996808, 3210313671,
   3336571891, 3584528711, 113926993, 338241895,
   666307205, 773529912, 1294757372, 1396182291,
   1695183700, 1986661051, 2177026350, 2456956037,
   2730485921, 2820302411, 3259730800, 3345764771,
   3516065817, 3600352804, 4094571909, 275423344,
   430227734, 506948616, 659060556, 883997877,
   958139571, 1322822218, 1537002063, 1747873779,
   1955562222, 2024104815, 2227730452, 2361852424,
   2428436474, 2756734187, 3204031479, 3329325298]

/-- The SHA-256 initial hash value. -/
def shaH0 : List Nat :=
  [1779033703, 3144134277, 1013904242, 2773480762,
   1359893119, 2600822924, 528734635, 1541459225]

/-- A natural as eight big-endian bytes. -/
def be64 (n : Nat) : List Nat :=
  [n / 2 ^ 56 % 256, n / 2 ^ 48 % 256, n / 2 ^ 40 % 256, n / 2 ^ 32 % 256,
   n / 2 ^ 24 % 256, n / 2 ^ 16 % 256, n / 2 ^ 8 % 256, n % 256]

/-- SHA-256 message padding to a multiple of 64 bytes. -/
def shaPad (msg : List Nat) : List Nat :=
  let L := msg.length
  let k := (64 - (L + 9) % 64) % 64
  msg ++ [128] ++ List.replicate k 0 ++ be64 (8 * L)

/-- Big-endian bytes to 32-bit words, four at a time. -/
def bytesToWords : List Nat → List Nat
  | b1 :: b2 :: b3 :: b4 :: rest => (((b1 * 256 + b2) * 256 + b3) * 256 + b4) :: bytesToWords rest
  | _ => []

/-- 32-bit words to big-endian bytes. -/
def wordsToBytes : List Nat → List Nat
  | w :: rest => w / 2 ^ 24 % 256 :: w / 2 ^ 16 % 256 :: w / 2 ^ 8 % 256 :: w % 256 :: wordsToBytes rest
  | [] => []

/-- Extend the 16 block words to the 64-entry message schedule. -/
def extendWords (w : List Nat) : List Nat :=
  (List.range 48).foldl
    (fun acc _ =>
      let n := acc.length
      acc ++ [add32 (add32 (ssig1 (acc.getD (n - 2) 0)) (acc.getD (n - 7) 0))
               (add32 (ssig0 (acc.getD (n - 15) 0)) (acc.getD (n - 16) 0))])
    w

/-- One SHA-256 round on the eight-word working state. -/
def roundStep (s : Nat × Nat × Nat × Nat × Nat × Nat × Nat × Nat) (kw : Nat × Nat) :
    Nat × Nat × Nat × Nat × Nat × Nat × Nat × Nat :=
  match s, kw with
  | (a, b, c, d, e, f, g, h), (k, w) =>
    let t1 := add32 (add32 (add32 h (bsig1 e)) (add32 (chf e f g) k)) w
    let t2 := add32 (bsig0 a) (majf a b c)
    (add32 t1 t2, a, b, c, add32 d t1, e, f, g)

/-- SHA-256 compression of one 64-byte block into the hash state. -/
def compress (hs : List Nat) (block : List Nat) : List Nat :=
  let w := extendWords (bytesToWords block)
  let init := (hs.getD 0 0, hs.getD 1 0, hs.getD 2 0, hs.getD 3 0,
               hs.getD 4 0, hs.getD 5 0, hs.getD 6 0, hs.getD 7 0)
  match (shaK.zip w).foldl roundStep init with
  | (a, b, c, d, e, f, g, h) =>
    [add32 (hs.getD 0 0) a, add32 (hs.getD 1 0) b, add32 (hs.getD 2 0) c, add32 (hs.getD 3 0) d,
     add32 (hs.getD 4 0) e, add32 (hs.getD 5 0) f, add32 (hs.getD 6 0) g, add32 (hs.getD 7 0) h]

/-- Process a padded message block by block; the fuel is the byte count,
ample since each step consumes 64 bytes. -/
def shaBlocks : Nat → List Nat → List Nat → List Nat
  | 0, _, hs => hs
  | fuel + 1, msg, hs =>
    if msg.isEmpty then hs
    else shaBlocks fuel (msg.drop 64) (compress hs (msg.take 64))

/-- `hashlib.sha256(msg).digest()`. -/
def sha256 (msg : List Nat) : List Nat :=
  let padded := shaPad msg
  wordsToBytes (shaBlocks padded.length padded shaH0)

/-- UTF-8 encoding of one character. -/
def utf8EncodeChar (c : Char) : List Nat :=
  let n := c.toNat
  if n < 128 then [n]
  else if n < 2048 then [192 + n / 64, 128 + n % 64]
  else if n < 65536 then [224 + n / 4096, 128 + n / 64 % 64, 128 + n % 64]
  else [240 + n / 262144, 128 + n / 4096 % 64, 128 + n / 64 % 64, 128 + n % 64]

/-- `s.encode()`: the UTF-8 bytes of a string. -/
def strToBytes (s : String) : List Nat := (s.toList.map utf8EncodeChar).flatten

/-- The URL-safe base64 alphabet. -/
def b64urlChars : List Char :=
  "ABCDEFGHIJKLMNOPQRSTUVWXYZabcdefghijklmnopqrstuvwxyz0123456789-_".toList

/-- A 6-bit value as a URL-safe base64 character. -/
def b64c (n : Nat) : Char := b64urlChars.getD n 'A'

/-- `base64.urlsafe_b64encode(bytes).rstrip(b"=")`: URL-safe base64 without
padding. -/
def b64urlEncode : List Nat → List Char
  | [] => []
  | [b1] => [b64c (b1 / 4), b64c (b1 % 4 * 16)]
  | [b1, b2] => [b64c (b1 / 4), b64c (b1 % 4 * 16 + b2 / 16), b64c (b2 % 16 * 4)]
  | b1 :: b2 :: b3 :: rest =>
    b64c (b1 / 4) :: b64c (b1 % 4 * 16 + b2 / 16) :: b64c (b2 % 16 * 4 + b3 / 64) :: b64c (b3 % 64)
      :: b64urlEncode rest

/-- The challenge string computed by the `/token` route from a verifier:
SHA-256, URL-safe base64, padding stripped. -/
def pkceChallenge (verifier : String) : String :=
  String.mk (b64urlEncode (sha256 (strToBytes verifier)))

/-! ### Ephemeral authorization-code store, from `app/routes/auth.py`

The redis holding of `auth_code:*` keys: a list of (code, payload, expiry)
entries on the same integer time axis. A key is readable strictly before its
expiry instant. -/

/-- The payload stored under `auth_code:{code}` by the login route. The
`code_challenge` key is always present in the stored dict, so the defensive
`"code_challenge" not in data` branch of the token route can never fire and
is not represented. -/
structure AuthCodeData where
  client_id : String
  redirect_uri : String
  code_challenge : String
  user_email : String
  user_tier : String
  origin : String
  deriving Repr, DecidableEq

/-- The ephemeral code store. -/
structure CodeStore where
  entries : List (String × AuthCodeData × Int)
  deriving Repr, DecidableEq

/-- `store_auth_code`: `setex` writes the value with an absolute expiry,
replacing any previous entry under the same key. -/
def store_auth_code (s : CodeStore) (code : String) (data : AuthCodeData) (now expires_in : Int) :
    CodeStore :=
  ⟨(code, data, now + expires_in) :: s.entries.filter (fun e => e.1 ≠ code)⟩

/-- `redis_client.get` on an `auth_code:*` key: the stored value while the
key is unexpired, else nothing. -/
def redis_get (s : CodeStore) (code : String) (now : Int) : Option AuthCodeData :=
  match s.entries.find? (fun e => e.1 = code) with
  | some e => if now < e.2.2 then some e.2.1 else none
  | none => none

/-- `redis_client.delete` on an `auth_code:*` key. -/
def redis_delete (s : CodeStore) (code : String) : CodeStore :=
  ⟨s.entries.filter (fun e => e.1 ≠ code)⟩

/-- `get_auth_code`: read, and delete on a hit. -/
def get_auth_code (s : CodeStore) (code : String) (now : Int) : CodeStore × Option AuthCodeData :=
  match redis_get s code now with
  | some d => (redis_delete s code, some d)
  | none => (s, none)

/-! ### Token endpoint, from `app/routes/auth.py` -/

/-- One `oauth_user_mcp` row. -/
structure OAuthUserMCP where
  client_id : String
  client_secret : String
  client_name : String
  redirect_uris : List String
  created_at : Int
  deriving Repr, DecidableEq

/-- `JWT_VALIDITY` (seconds). -/
def JWT_VALIDITY : Int := 86400 * 7

/-- The claim set signed by `AuthService.create_access_token`; the JWT is
identified with its claims, the signature being the concern of the jwt
library. -/
structure AccessTokenClaims where
  sub : String
  tier : String
  origin : String
  exp : Int
  deriving Repr, DecidableEq

/-- `AuthService.create_access_token`. -/
def create_access_token (email tier origin : String) (now : Int) : AccessTokenClaims :=
  { sub := email, tier := tier, origin := origin, exp := now + JWT_VALIDITY }

/-- Outcome of the `/token` route: the minted token, or an HTTPException
with its status and detail string. -/
inductive TokenResponse where
  | ok (claims : AccessTokenClaims)
  | httpError (status : Nat) (detail : String)
  deriving Repr, DecidableEq

/-- The `client_secret` branch of the token route: present (truthy) secrets
must match the registered client. -/
def secretCheckFails (clients : List OAuthUserMCP) (client_id : String) :
    Option String → Bool
  | none => false
  | some cs =>
    match clients.find? (fun c => c.client_id = client_id) with
    | none => true
    | some cl => cl.client_secret ≠ cs

/-- The `code_verifier` branch of the token route: present (truthy) verifiers
must hash to the stored challenge. -/
def pkceCheckFails (data : AuthCodeData) : Option String → Bool
  | none => false
  | some v => data.code_challenge ≠ pkceChallenge v

/-- The `/token` route handler. `grant_type` and `redirect_uri` are accepted
and never inspected, exactly as in the source; an `Option` form field is
`none` when the field is missing or empty (falsy). -/
def token (store : CodeStore) (clients : List OAuthUserMCP)
    (grant_type redirect_uri : Option String) (code client_id : String)
    (client_secret code_verifier : Option String) (now : Int) :
    CodeStore × TokenResponse :=
  let got := get_auth_code store code now
  match got.2 with
  | none => (got.1, TokenResponse.httpError 400 "Invalid or expired code")
  | some data =>
    (got.1,
      if data.client_id ≠ client_id then
        TokenResponse.httpError 400 "Mismatched redirect_uri or client_id"
      else if secretCheckFails clients client_id client_secret then
        TokenResponse.httpError 401 "Invalid client credentials"
      else if pkceCheckFails data code_verifier then
        TokenResponse.httpError 400 "PKCE verification failed"
      else
        TokenResponse.ok (create_access_token data.user_email data.user_tier data.origin now))

/-! ### Standard base64 and UTF-8 decoding, for the middleware -/

/-- The standard base64 alphabet. -/
def b64stdChars : List Char :=
  "ABCDEFGHIJKLMNOPQRSTUVWXYZabcdefghijklmnopqrstuvwxyz0123456789+/".toList

/-- The 6-bit value of a standard base64 character. -/
def b64val (c : Char) : Option Nat := b64stdChars.findIdx? (fun x => x = c)

/-- Decode base64 quartets; padding may close the final quartet only. -/
def b64Groups : List Char → Option (List Nat)
  | [] => some []
  | c1 :: c2 :: c3 :: c4 :: rest =>
    match b64val c1, b64val c2 with
    | some v1, some v2 =>
      if c3 = '=' then
        if c4 = '=' && rest.isEmpty then some [v1 * 4 + v2 / 16] else none
      else
        match b64val c3 with
        | some v3 =>
          if c4 = '=' then
            if rest.isEmpty then some [v1 * 4 + v2 / 16, v2 % 16 * 16 + v3 / 4] else none
          else
            match b64val c4 with
            | some v4 =>
              match b64Groups rest with
              | some bs => some ((v1 * 4 + v2 / 16) :: (v2 % 16 * 16 + v3 / 4) :: (v3 % 4 * 64 + v4) :: bs)
              | none => none
            | none => none
        | none => none
    | _, _ => none
  | _ => none

/-- `base64.b64decode` with default validation: characters outside the
alphabet are discarded, then the length must be a padding-complete multiple
of four. -/
def b64decodeBytes (s : String) : Option (List Nat) :=
  let cs := s.toList.filter (fun c => b64stdChars.contains c || c = '=')
  if cs.length % 4 = 0 then b64Groups cs else none

/-- Continuation byte test for UTF-8. -/
def isCont (b : Nat) : Bool := 128 ≤ b && b < 192

/-- Admissible second byte of a three-byte UTF-8 sequence (excluding
overlong forms and surrogates). -/
def utf8Second3 (b b2 : Nat) : Bool :=
  if b = 224 then 160 ≤ b2 && b2 ≤ 191
  else if b = 237 then 128 ≤ b2 && b2 ≤ 159
  else isCont b2

/-- Admissible second byte of a four-byte UTF-8 sequence. -/
def utf8Second4 (b b2 : Nat) : Bool :=
  if b = 240 then 144 ≤ b2 && b2 ≤ 191
  else if b = 244 then 128 ≤ b2 && b2 ≤ 143
  else isCont b2

/-- Strict UTF-8 decoding, modelling `bytes.decode("utf-8")`; `none` is the
raised UnicodeDecodeError. -/
def utf8Decode : List Nat → Option (List Char)
  | [] => some []
  | b :: rest =>
    if b < 128 then
      match utf8Decode rest with
      | some cs => some (Char.ofNat b :: cs)
      | none => none
    else if 194 ≤ b && b ≤ 223 then
      match rest with
      | b2 :: rest2 =>
        if isCont b2 then
          match utf8Decode rest2 with
          | some cs => some (Char.ofNat ((b - 192) * 64 + (b2 - 128)) :: cs)
          | none => none
        else none
      | [] => none
    else if 224 ≤ b && b ≤ 239 then
      match rest with
      | b2 :: b3 :: rest3 =>
        if utf8Second3 b b2 && isCont b3 then
          match utf8Decode rest3 with
          | some cs => some (Char.ofNat ((b - 224) * 4096 + (b2 - 128) * 64 + (b3 - 128)) :: cs)
          | none => none
        else none
      | _ => none
    else if 240 ≤ b && b ≤ 244 then
      match rest with
      | b2 :: b3 :: b4 :: rest4 =>
        if utf8Second4 b b2 && isCont b3 && isCont b4 then
          match utf8Decode rest4 with
          | some cs =>
            some (Char.ofNat ((b - 240) * 262144 + (b2 - 128) * 4096 + (b3 - 128) * 64 + (b4 - 128)) :: cs)
          | none => none
        else none
      | _ => none
    else none

/-- Decode the Basic credential blob: base64, then UTF-8. -/
def decodeBasicCreds (enc : String) : Option String :=
  match b64decodeBytes enc with
  | none => none
  | some bytes =>
    match utf8Decode bytes with
    | none => none
    | some cs => some (String.mk cs)

/-! ### AuthenticationMiddleware, from `app/middleware.py` -/

/-- Outcome of one middleware dispatch: hand the request on untouched, hand
it on with the decoded Gong credentials attached to the request state, or
answer directly with an error response. -/
inductive DispatchResult where
  | passthrough
  | forward (gong_access_key gong_access_secret : String)
  | reject (status : Nat) (content : String)
  deriving Repr, DecidableEq

/-- The path guard of the middleware. -/
def isProtectedPath (p : String) : Bool :=
  pyEndsWith p "/sse" || pyEndsWith p "/mcp" || pyEndsWith p "/mcp/"

/-- The 401 body for a missing or non-Basic Authorization header. -/
def missingAuthMsg : String :=
  "Unauthorized: Missing or invalid Authorization header. Please provide Gong credentials via HTTP Basic Auth."

/-- Split at the first colon, as `decoded_str.split(":", 1)` does when a
colon is present. -/
def splitFirstColon (l : List Char) : List Char × List Char :=
  (l.takeWhile (fun c => c ≠ ':'), (l.dropWhile (fun c => c ≠ ':')).drop 1)

/-- `AuthenticationMiddleware.dispatch`, as a function of the request path
and Authorization header. The decode-failure 401 body carries the exception
text in the source; the model keeps its fixed prefix. -/
def AuthenticationMiddleware.dispatch (path : String) (authHeader : Option String) :
    DispatchResult :=
  if !isProtectedPath path then DispatchResult.passthrough
  else
    let auth := authHeader.getD ""
    if !pyStartsWith auth "Basic " then DispatchResult.reject 401 missingAuthMsg
    else
      let encoded := pyReplace auth "Basic " ""
      match decodeBasicCreds encoded with
      | none => DispatchResult.reject 401 "Unauthorized: Failed to decode credentials"
      | some decoded =>
        if !decoded.toList.contains ':' then
          DispatchResult.reject 401 "Unauthorized: Invalid credentials format"
        else
          let kv := splitFirstColon decoded.toList
          DispatchResult.forward (String.mk kv.1) (String.mk kv.2)

/-! ### The gateway middleware described by the specification -/

/-- Outcome of the gateway dispatch described by the specification. -/
inductive GatewayResult where
  | unauthorized
  | forbidden
  | forward (identity : String)
  deriving Repr, DecidableEq

/-- `AuthService.get_bearer_token`, from `app/services/auth.py`: split the
Authorization header on whitespace and accept exactly `Bearer token`. -/
def pySplitWsGo : List Char → List Char → List String
  | [], cur => if cur.isEmpty then [] else [String.mk cur.reverse]
  | c :: rest, cur =>
    if c = ' ' || c = '\t' || c = '\n' then
      if cur.isEmpty then pySplitWsGo rest [] else String.mk cur.reverse :: pySplitWsGo rest []
    else pySplitWsGo rest (c :: cur)

/-- `s.split()` with no separator: split on whitespace runs. -/
def pySplitWs (s : String) : List String := pySplitWsGo s.toList []

/-- `AuthService.get_bearer_token`. -/
def get_bearer_token (authorization_header : Option String) : Option String :=
  match authorization_header with
  | none => none
  | some h =>
    match pySplitWs h with
    | [p1, p2] => if p1 = "Bearer" then some p2 else none
    | _ => none

/-- Modelled from the spec, section 4.4: the gateway middleware it describes
extracts a bearer token, verifies it (the Token Service verdict is the
`verify` argument), rejects UNAUTHORIZED on a missing or invalid token,
rejects FORBIDDEN when the resolved subject lacks the gate permission, and
otherwise forwards with the resolved identity attached. -/
def specGatewayDispatch (verify : String → Option String) (hasGatePermission : String → Bool)
    (authHeader : Option String) : GatewayResult :=
  match get_bearer_token authHeader with
  | none => GatewayResult.unauthorized
  | some tok =>
    match verify tok with
    | none => GatewayResult.unauthorized
    | some ident =>
      if hasGatePermission ident then GatewayResult.forward ident else GatewayResult.forbidden

/-! ### Scenario constants for the window-limit claim -/

/-- A fresh unblocked subject on the FREE tier, created at instant 0. -/
def freshWindowUser : MCPUser :=
  ⟨1, "user@example.com", "FREE", 100, UserStatusEnum.FREE, 0, 0, 0⟩

/-- Thirty distinct company ids. -/
def windowCompanyIds : List Int := (List.range 30).map (fun n => (n : Int))

/-- The activity rows produced by logging the thirty accesses at instant 0. -/
def windowLog : List MCPUserActivity := windowCompanyIds.map (fun c => ⟨1, c, 0⟩)

/-- The within-window distinct count in the words of the spec: distinct
resources logged in the closed interval from `max(unblocked_at, now - days)`
to `now`. -/
def windowDistinctCountSpec (log : List MCPUserActivity) (uid : Nat) (ut : Int)
    (days : Nat) (now : Int) : Nat :=
  countDistinct ((log.filter (fun a =>
    a.user_id = uid && (max ut (now - (days : Int) * 86400) ≤ a.timestamp && a.timestamp ≤ now))).map
      (fun a => a.accessed_company))

/-! ## Theorems -/

/-- Every tier present in `TIER_TIME_LIMITS` has window limit 30 and window
length 7 days. -/
theorem tierConfigValues {t : String} {cfg : TierTimeConfig}
    (h : TIER_TIME_LIMITS t = some cfg) : cfg = ⟨30, 7⟩ := by
  unfold TIER_TIME_LIMITS at h
  split_ifs at h <;> simp_all

/-- Auto-unblocking does not change the row id. -/
theorem unblock_user_id (user : MCPUser) (now : Int) : (unblock_user user now).id = user.id := rfl

/-- C1: for a subject outside the internal domain whose lifetime distinct
count has reached its total limit, every `access_control` call is denied
with the total-limit message, leaving the user row and the activity table
untouched, for every resource, every status and every instant — so, in
particular, before and independently of the window rules. -/
theorem C1_total_limit_is_hard_ceiling (user : MCPUser) (log : List MCPUserActivity)
    (company_id : Int) (now : Int) (cfg : TierTimeConfig)
    (htier : TIER_TIME_LIMITS user.tier = some cfg)
    (hext : pyEndsWith user.email "@daloopa.com" = false)
    (hcap : user.total_limit ≤ countDistinctAccessed log user.id) :
    access_control user log company_id now =
      some ⟨user, log, false, "Total limit reached for the user."⟩ := by
  unfold access_control
  rw [htier]
  simp [hext, is_total_limit_reached, hcap]

/-- Witness for C1 at a concrete blocked-at-cap subject. -/
theorem C1_total_limit_is_hard_ceiling_witness :
    access_control ⟨1, "u@example.com", "FREE", 1, UserStatusEnum.BLOCKED, 0, 0, 0⟩
        [⟨1, 5, 0⟩] 9 604800 =
      some ⟨⟨1, "u@example.com", "FREE", 1, UserStatusEnum.BLOCKED, 0, 0, 0⟩,
        [⟨1, 5, 0⟩], false, "Total limit reached for the user."⟩ :=
  C1_total_limit_is_hard_ceiling _ _ 9 604800 ⟨30, 7⟩ (by decide) (by decide) (by decide)

/-- C2 counterexample: a subject at its lifetime cap is denied even on a
resource already present in its activity log, so the repeat-access exemption
does not hold in every state. -/
theorem C2_counterexample :
    already_accessed_company [⟨1, 5, 0⟩] 1 5 = true ∧
    access_control ⟨1, "u@example.com", "FREE", 1, UserStatusEnum.FREE, 0, 0, 0⟩ [⟨1, 5, 0⟩] 5 0 =
      some ⟨⟨1, "u@example.com", "FREE", 1, UserStatusEnum.FREE, 0, 0, 0⟩, [⟨1, 5, 0⟩], false,
        "Total limit reached for the user."⟩ := by
  exact ⟨by decide, by decide⟩

/-- C2 as amended: a repeat access is allowed and appends no activity row in
every status of the subject, provided the lifetime distinct count is still
below the total limit (at the cap the lifetime rule fires first and denies
even repeat accesses). -/
theorem C2_repeat_access_is_free_below_cap (user : MCPUser) (log : List MCPUserActivity)
    (company_id : Int) (now : Int) (cfg : TierTimeConfig)
    (htier : TIER_TIME_LIMITS user.tier = some cfg)
    (hrep : already_accessed_company log user.id company_id = true)
    (hbelow : countDistinctAccessed log user.id < user.total_limit) :
    ∃ r, access_control user log company_id now = some r ∧ r.allowed = true ∧ r.log = log := by
  unfold access_control
  rw [htier]
  by_cases hd : pyEndsWith user.email "@daloopa.com"
  · exact ⟨⟨user, log, true, "Access granted for internal Daloopa users."⟩,
      by simp [hd], rfl, rfl⟩
  · have hcap : is_total_limit_reached log user = false := by
      simp [is_total_limit_reached]
      omega
    by_cases hu : should_auto_unblock user cfg.days now
    · exact ⟨⟨unblock_user user now, log, true, ""⟩,
        by simp [hd, hcap, hu, unblock_user_id, hrep], rfl, rfl⟩
    · exact ⟨⟨user, log, true, ""⟩, by simp [hd, hcap, hu, hrep], rfl, rfl⟩

/-- Witness for C2 as amended: a repeat access by a blocked subject below
its cap. -/
theorem C2_repeat_access_is_free_below_cap_witness :
    ∃ r, access_control ⟨1, "u@example.com", "FREE", 100, UserStatusEnum.BLOCKED, 0, 0, 0⟩
        [⟨1, 5, 0⟩] 5 60 = some r ∧ r.allowed = true ∧ r.log = [⟨1, 5, 0⟩] :=
  C2_repeat_access_is_free_below_cap _ _ 5 60 ⟨30, 7⟩ (by decide) (by decide) (by decide)

/-- C3: on the FREE tier (window limit 30 over 7 days) a fresh subject is
allowed 30 distinct resources; the 31st distinct resource at the same
instant is denied, the row flips to BLOCKED, and the message renders the
unblock instant `unblocked_at + 7 days`; and, on any activity table whose
timestamps do not lie in the future, the window count used by the code is
exactly the spec count of distinct resources logged in
`[max(unblocked_at, now - days), now]`. -/
theorem C3_window_limit_scenario :
    (runAll freshWindowUser [] windowCompanyIds 0 =
        some (freshWindowUser, windowLog, true) ∧
      access_control freshWindowUser windowLog 30 0 =
        some ⟨⟨1, "user@example.com", "FREE", 100, UserStatusEnum.BLOCKED, 0, 0, 0⟩, windowLog,
          false, "User is blocked. Limit will be reset automatically at 1970-01-08 00:00 UTC."⟩ ∧
      blockedMessage (freshWindowUser.unblocked_at + (7 : Int) * 86400) =
        "User is blocked. Limit will be reset automatically at 1970-01-08 00:00 UTC.") ∧
    ∀ (log : List MCPUserActivity) (uid : Nat) (ut : Int) (days limit : Nat) (now : Int),
      (∀ a ∈ log, a.timestamp ≤ now) →
      (is_limit_reached log uid ut days limit now = true ↔
        limit ≤ windowDistinctCountSpec log uid ut days now) := by
  refine ⟨⟨by decide, by decide, by decide⟩, ?_⟩
  intro log uid ut days limit now h
  have hfilter : log.filter (fun a => a.user_id = uid && max ut (now - (days : Int) * 86400) ≤ a.timestamp) =
      log.filter (fun a =>
        a.user_id = uid && (max ut (now - (days : Int) * 86400) ≤ a.timestamp && a.timestamp ≤ now)) := by
    apply List.filter_congr
    intro a ha
    have ht : a.timestamp ≤ now := h a ha
    simp [ht]
  simp only [is_limit_reached, windowDistinctCountSpec, hfilter]
  simp

/-- Witness for the window-count characterisation of C3 on a one-row table. -/
theorem C3_window_limit_scenario_witness :
    is_limit_reached [⟨1, 5, 0⟩] 1 0 7 1 0 = true ↔
      1 ≤ windowDistinctCountSpec [⟨1, 5, 0⟩] 1 0 7 0 :=
  C3_window_limit_scenario.2 [⟨1, 5, 0⟩] 1 0 7 1 0 (by decide)

/-- C4 counterexample: a BLOCKED subject at its lifetime cap, checked when
the elapsed time condition for auto-unblock holds, is denied by the lifetime
rule before the unblock transition is evaluated: the returned row is still
BLOCKED and `unblocked_at` is not reset, so the transition does not fire for
every BLOCKED subject. -/
theorem C4_counterexample :
    should_auto_unblock ⟨1, "cap@example.com", "FREE", 1, UserStatusEnum.BLOCKED, 0, 0, 0⟩
        7 604800 = true ∧
    access_control ⟨1, "cap@example.com", "FREE", 1, UserStatusEnum.BLOCKED, 0, 0, 0⟩
        [⟨1, 5, 0⟩] 6 604800 =
      some ⟨⟨1, "cap@example.com", "FREE", 1, UserStatusEnum.BLOCKED, 0, 0, 0⟩, [⟨1, 5, 0⟩], false,
        "Total limit reached for the user."⟩ :=
  ⟨by decide, by decide⟩

/-- C4 as amended: for a non-internal BLOCKED subject below its lifetime
cap, a check with elapsed time at least the window length unblocks the row
(status FREE, `unblocked_at` reset to now) before the remaining rules run
and the attempt is allowed; with smaller elapsed time the subject stays
BLOCKED and a new resource is denied with the computed unblock instant. At
or above the cap, or for internal-domain subjects, the call returns before
the transition is evaluated. -/
theorem C4_lazy_auto_unblock (user : MCPUser) (log : List MCPUserActivity)
    (company_id : Int) (now : Int) (cfg : TierTimeConfig)
    (htier : TIER_TIME_LIMITS user.tier = some cfg)
    (hext : pyEndsWith user.email "@daloopa.com" = false)
    (hblocked : user.status = UserStatusEnum.BLOCKED)
    (hbelow : countDistinctAccessed log user.id < user.total_limit) :
    ((cfg.days : Int) ≤ timedeltaDays (now - user.unblocked_at) →
      (∀ a ∈ log, a.user_id = user.id → a.timestamp < now) →
      ∃ r, access_control user log company_id now = some r ∧ r.allowed = true ∧
        r.user.status = UserStatusEnum.FREE ∧ r.user.unblocked_at = now) ∧
    (timedeltaDays (now - user.unblocked_at) < (cfg.days : Int) →
      already_accessed_company log user.id company_id = false →
      access_control user log company_id now =
        some ⟨user, log, false, blockedMessage (user.unblocked_at + (cfg.days : Int) * 86400)⟩) := by
  have hcfg := tierConfigValues htier
  subst hcfg
  have hcap : is_total_limit_reached log user = false := by
    simp [is_total_limit_reached]
    omega
  constructor
  · intro helapsed hpast
    have hu : should_auto_unblock user 7 now = true := by
      simp [should_auto_unblock, hblocked]
      exact_mod_cast helapsed
    by_cases hrep : already_accessed_company log user.id company_id
    · refine ⟨⟨unblock_user user now, log, true, ""⟩, ?_, rfl, rfl, rfl⟩
      unfold access_control
      rw [htier]
      simp [hext, hcap, hu, unblock_user_id, hrep]
    · have hfe : log.filter (fun a => a.user_id = user.id && now ≤ a.timestamp) = [] := by
        rw [List.filter_eq_nil_iff]
        intro a ha
        by_cases hid : a.user_id = user.id
        · have hlt := hpast a ha hid
          simp [hid]
          omega
        · simp [hid]
      have hwl : is_limit_reached log user.id now 7 30 now = false := by
        have hmax : max now (now - ((7 : Nat) : Int) * 86400) = now := max_eq_left (by omega)
        simp only [is_limit_reached, hmax, hfe]
        simp [countDistinct]
      refine ⟨⟨unblock_user user now, log ++ [⟨user.id, company_id, now⟩], true, ""⟩, ?_, rfl, rfl, rfl⟩
      unfold access_control
      rw [htier]
      simp [hext, hcap, hu, unblock_user_id, hrep, unblock_user, hwl]
  · intro hlt hnew
    have hlt7 : timedeltaDays (now - user.unblocked_at) < 7 := by simpa using hlt
    have hu : should_auto_unblock user 7 now = false := by
      simp [should_auto_unblock, hblocked]
      omega
    unfold access_control
    rw [htier]
    simp [hext, hcap, hu, hnew, hblocked]

/-- Witness for C4 at a concrete blocked subject: one check past the window
length (unblocks and allows), one inside it (stays blocked and denies). -/
theorem C4_lazy_auto_unblock_witness :
    (∃ r, access_control ⟨1, "u@example.com", "FREE", 100, UserStatusEnum.BLOCKED, 0, 0, 0⟩
        [⟨1, 5, 100⟩] 9 604800 = some r ∧ r.allowed = true ∧
        r.user.status = UserStatusEnum.FREE ∧ r.user.unblocked_at = 604800) ∧
    access_control ⟨1, "u@example.com", "FREE", 100, UserStatusEnum.BLOCKED, 0, 0, 0⟩
        [⟨1, 5, 100⟩] 9 600 =
      some ⟨⟨1, "u@example.com", "FREE", 100, UserStatusEnum.BLOCKED, 0, 0, 0⟩, [⟨1, 5, 100⟩], false,
        blockedMessage (0 + ((7 : Nat) : Int) * 86400)⟩ :=
  ⟨(C4_lazy_auto_unblock _ _ 9 604800 ⟨30, 7⟩ (by decide) (by decide) rfl (by decide)).1
      (by decide) (by decide),
    (C4_lazy_auto_unblock _ _ 9 600 ⟨30, 7⟩ (by decide) (by decide) rfl (by decide)).2
      (by decide) (by decide)⟩

/-- C9 counterexample: the lookup misses, a concurrent request commits the
row for the same email, and the insert hits the uniqueness constraint; the
operation then returns no subject at all instead of resolving to the
existing row. -/
theorem C9_counterexample :
    get_or_create_mcp_user [] [⟨7, "a@b.com", "FREE", 100, UserStatusEnum.FREE, 0, 0, 0⟩]
        "a@b.com" "free" 0 2 =
      ([⟨7, "a@b.com", "FREE", 100, UserStatusEnum.FREE, 0, 0, 0⟩], none) := by
  decide

/-- C9 as amended: `get_or_create_mcp_user` returns the existing row when
the lookup finds one, otherwise inserts a fresh row seeded with the
configured total limit of the upper-cased tier (default 10); but when the
insert hits the uniqueness constraint because a concurrent request committed
the email first, it rolls back and returns `none` rather than re-reading the
existing row. -/
theorem C9_get_or_create_race (users0 interleaved : List MCPUser) (email tier : String)
    (now : Int) (newId : Nat) :
    (∀ u, get_mcp_user users0 email = some u →
      get_or_create_mcp_user users0 interleaved email tier now newId =
        (users0 ++ interleaved, some u)) ∧
    (get_mcp_user users0 email = none →
      (users0 ++ interleaved).any (fun u => u.email = email) = false →
      get_or_create_mcp_user users0 interleaved email tier now newId =
        ((users0 ++ interleaved) ++
            [⟨newId, email, pyUpper tier, tierTotalLimitsGet (pyUpper tier) 10,
              UserStatusEnum.FREE, now, now, now⟩],
          some ⟨newId, email, pyUpper tier, tierTotalLimitsGet (pyUpper tier) 10,
            UserStatusEnum.FREE, now, now, now⟩)) ∧
    (get_mcp_user users0 email = none →
      (users0 ++ interleaved).any (fun u => u.email = email) = true →
      get_or_create_mcp_user users0 interleaved email tier now newId =
        (users0 ++ interleaved, none)) := by
  refine ⟨?_, ?_, ?_⟩
  · intro u hu
    unfold get_or_create_mcp_user
    rw [hu]
  · intro hnone hdup
    unfold get_or_create_mcp_user
    rw [hnone]
    unfold create_mcp_user
    rw [hdup]
    simp
  · intro hnone hdup
    unfold get_or_create_mcp_user
    rw [hnone]
    unfold create_mcp_user
    rw [hdup]
    simp

/-- Witness for C9 as amended, exercising all three branches concretely. -/
theorem C9_get_or_create_race_witness :
    (get_or_create_mcp_user [⟨3, "a@b.com", "FREE", 100, UserStatusEnum.FREE, 0, 0, 0⟩] []
        "a@b.com" "free" 5 9 =
      ([⟨3, "a@b.com", "FREE", 100, UserStatusEnum.FREE, 0, 0, 0⟩],
        some ⟨3, "a@b.com", "FREE", 100, UserStatusEnum.FREE, 0, 0, 0⟩)) ∧
    (get_or_create_mcp_user [] [] "a@b.com" "free" 5 9 =
      ([⟨9, "a@b.com", pyUpper "free", tierTotalLimitsGet (pyUpper "free") 10,
          UserStatusEnum.FREE, 5, 5, 5⟩],
        some ⟨9, "a@b.com", pyUpper "free", tierTotalLimitsGet (pyUpper "free") 10,
          UserStatusEnum.FREE, 5, 5, 5⟩)) ∧
    (get_or_create_mcp_user [] [⟨4, "a@b.com", "FREE", 100, UserStatusEnum.FREE, 0, 0, 0⟩]
        "a@b.com" "free" 5 9 =
      ([⟨4, "a@b.com", "FREE", 100, UserStatusEnum.FREE, 0, 0, 0⟩], none)) := by
  refine ⟨?_, ?_, ?_⟩
  · exact (C9_get_or_create_race _ [] "a@b.com" "free" 5 9).1 _ (by decide)
  · have h := (C9_get_or_create_race [] [] "a@b.com" "free" 5 9).2.1 (by decide) (by decide)
    simpa using h
  · exact (C9_get_or_create_race [] _ "a@b.com" "free" 5 9).2.2 (by decide) (by decide)

/-- Deleting a code removes it from the store for every later read. -/
theorem redis_get_delete_self (s : CodeStore) (code : String) (t : Int) :
    redis_get (redis_delete s code) code t = none := by
  unfold redis_get redis_delete
  have hfind : (s.entries.filter (fun e => e.1 ≠ code)).find? (fun e => e.1 = code) = none := by
    rw [List.find?_eq_none]
    intro e he
    have hmem := (List.mem_filter.mp he).2
    simp at hmem ⊢
    exact hmem
  rw [hfind]

/-- A read that finds the code leaves the store with that code deleted. -/
theorem token_store_after_hit (store : CodeStore) (clients : List OAuthUserMCP)
    (g r : Option String) (code client_id : String) (cs cv : Option String) (now : Int)
    (data : AuthCodeData) (hget : redis_get store code now = some data) :
    (token store clients g r code client_id cs cv now).1 = redis_delete store code := by
  unfold token get_auth_code
  rw [hget]

/-- A token call on a store that no longer holds the code is INVALID_GRANT. -/
theorem token_miss_is_invalid_grant (store : CodeStore) (clients : List OAuthUserMCP)
    (g r : Option String) (code client_id : String) (cs cv : Option String) (now : Int)
    (hmiss : redis_get store code now = none) :
    (token store clients g r code client_id cs cv now).2 =
      TokenResponse.httpError 400 "Invalid or expired code" := by
  unfold token get_auth_code
  rw [hmiss]

/-- C5: a stored, unexpired code with matching client data is exchanged for
the minted token exactly once — the identical second call is INVALID_GRANT —
and an exchange attempted at or after 600 seconds past issuance is
INVALID_GRANT even for a never-used code. -/
theorem C5_code_single_use_and_ttl :
    (∀ (store : CodeStore) (clients : List OAuthUserMCP) (g r : Option String)
        (code client_id : String) (cs cv : Option String) (now now2 : Int) (data : AuthCodeData),
      redis_get store code now = some data →
      data.client_id = client_id →
      (∀ s0, cs = some s0 → ∃ cl, clients.find? (fun c => c.client_id = client_id) = some cl ∧
        cl.client_secret = s0) →
      (∀ v, cv = some v → pkceChallenge v = data.code_challenge) →
      (token store clients g r code client_id cs cv now).2 =
          TokenResponse.ok (create_access_token data.user_email data.user_tier data.origin now) ∧
        (token (token store clients g r code client_id cs cv now).1 clients g r code client_id
            cs cv now2).2 = TokenResponse.httpError 400 "Invalid or expired code") ∧
    (∀ (s : CodeStore) (code : String) (data : AuthCodeData) (t0 now : Int)
        (clients : List OAuthUserMCP) (g r : Option String) (client_id : String)
        (cs cv : Option String),
      t0 + 600 ≤ now →
      (token (store_auth_code s code data t0 600) clients g r code client_id cs cv now).2 =
        TokenResponse.httpError 400 "Invalid or expired code") := by
  constructor
  · intro store clients g r code client_id cs cv now now2 data hget hcid hsec hpkce
    have hsecF : secretCheckFails clients client_id cs = false := by
      cases cs with
      | none => rfl
      | some s0 =>
        obtain ⟨cl, hcl, hsk⟩ := hsec s0 rfl
        simp [secretCheckFails, hcl, hsk]
    have hpkceF : pkceCheckFails data cv = false := by
      cases cv with
      | none => rfl
      | some v =>
        have hv := hpkce v rfl
        simp [pkceCheckFails, hv]
    constructor
    · unfold token get_auth_code
      rw [hget]
      simp [hcid, hsecF, hpkceF]
    · rw [token_store_after_hit store clients g r code client_id cs cv now data hget]
      exact token_miss_is_invalid_grant _ clients g r code client_id cs cv now2
        (redis_get_delete_self store code now2)
  · intro s code data t0 now clients g r client_id cs cv hexp
    apply token_miss_is_invalid_grant
    unfold redis_get store_auth_code
    simp [List.find?]
    omega

/-- Witness for C5 at a concrete store: one successful exchange, the replay
denied, and an expired exchange denied. -/
theorem C5_code_single_use_and_ttl_witness :
    ((token ⟨[("c1", ⟨"cid", "http://cb", "x", "u@example.com", "TRIAL", "Org"⟩, 600)]⟩ []
          none none "c1" "cid" none none 0).2 =
        TokenResponse.ok (create_access_token "u@example.com" "TRIAL" "Org" 0) ∧
      (token (token ⟨[("c1", ⟨"cid", "http://cb", "x", "u@example.com", "TRIAL", "Org"⟩, 600)]⟩ []
            none none "c1" "cid" none none 0).1 [] none none "c1" "cid" none none 0).2 =
        TokenResponse.httpError 400 "Invalid or expired code") ∧
    (token (store_auth_code ⟨[]⟩ "c2" ⟨"cid", "http://cb", "x", "u@example.com", "TRIAL", "Org"⟩
          0 600) [] none none "c2" "cid" none none 600).2 =
      TokenResponse.httpError 400 "Invalid or expired code" :=
  ⟨C5_code_single_use_and_ttl.1 _ [] none none "c1" "cid" none none 0 0
      (⟨"cid", "http://cb", "x", "u@example.com", "TRIAL", "Org"⟩ : AuthCodeData) (by decide) rfl
      (fun _ h => Option.noConfusion h) (fun _ h => Option.noConfusion h),
    C5_code_single_use_and_ttl.2 ⟨[]⟩ "c2" (⟨"cid", "http://cb", "x", "u@example.com", "TRIAL", "Org"⟩ : AuthCodeData) 0 600 [] none none "cid" none none
      (by decide)⟩

/-- C6: a token call supplying a verifier mints a token only when the stored
challenge equals the SHA-256, URL-safe-base64, unpadded hash of the
verifier; when the earlier code and client checks pass and the hash does not
match, the call fails with the PKCE error and no token is minted. -/
theorem C6_pkce_gate :
    (∀ (store : CodeStore) (clients : List OAuthUserMCP) (g r : Option String)
        (code client_id : String) (cs : Option String) (v : String) (now : Int)
        (claims : AccessTokenClaims),
      (token store clients g r code client_id cs (some v) now).2 = TokenResponse.ok claims →
      ∃ data, redis_get store code now = some data ∧ data.code_challenge = pkceChallenge v) ∧
    (∀ (store : CodeStore) (clients : List OAuthUserMCP) (g r : Option String)
        (code client_id : String) (cs : Option String) (v : String) (now : Int)
        (data : AuthCodeData),
      redis_get store code now = some data →
      data.client_id = client_id →
      (∀ s0, cs = some s0 → ∃ cl, clients.find? (fun c => c.client_id = client_id) = some cl ∧
        cl.client_secret = s0) →
      data.code_challenge ≠ pkceChallenge v →
      (token store clients g r code client_id cs (some v) now).2 =
        TokenResponse.httpError 400 "PKCE verification failed") := by
  constructor
  · intro store clients g r code client_id cs v now claims hok
    unfold token get_auth_code at hok
    cases hget : redis_get store code now with
    | none =>
      rw [hget] at hok
      exact absurd hok (by simp)
    | some data =>
      rw [hget] at hok
      refine ⟨data, rfl, ?_⟩
      by_cases h1 : data.client_id ≠ client_id
      · simp [h1] at hok
      · by_cases h2 : secretCheckFails clients client_id cs
        · simp [h1, h2] at hok
        · by_cases h3 : pkceCheckFails data (some v)
          · simp [h1, h2, h3] at hok
          · simp [pkceCheckFails] at h3
            exact h3
  · intro store clients g r code client_id cs v now data hget hcid hsec hmis
    have hsecF : secretCheckFails clients client_id cs = false := by
      cases cs with
      | none => rfl
      | some s0 =>
        obtain ⟨cl, hcl, hsk⟩ := hsec s0 rfl
        simp [secretCheckFails, hcl, hsk]
    unfold token get_auth_code
    rw [hget]
    simp [hcid, hsecF, pkceCheckFails, hmis]

set_option maxRecDepth 100000 in
/-- Witness for C6 at a concrete mismatching verifier. -/
theorem C6_pkce_gate_witness :
    (token ⟨[("c1", ⟨"cid", "http://cb", "x", "u@example.com", "TRIAL", "Org"⟩, 600)]⟩ []
        none none "c1" "cid" none (some "a") 0).2 =
      TokenResponse.httpError 400 "PKCE verification failed" :=
  C6_pkce_gate.2 _ [] none none "c1" "cid" none "a" 0 (⟨"cid", "http://cb", "x", "u@example.com", "TRIAL", "Org"⟩ : AuthCodeData) (by decide) rfl
    (fun _ h => Option.noConfusion h) (by decide)

/-- C10: a token call that finds the stored code deletes it up front, before
the client, secret and PKCE checks; so whatever the outcome of those checks,
any retry with the same code is INVALID_GRANT. -/
theorem C10_code_consumed_on_read (store : CodeStore) (clients : List OAuthUserMCP)
    (g r : Option String) (code client_id : String) (cs cv : Option String) (now : Int)
    (data : AuthCodeData) (hget : redis_get store code now = some data) :
    (token store clients g r code client_id cs cv now).1 = redis_delete store code ∧
    ∀ (clients2 : List OAuthUserMCP) (g2 r2 : Option String) (client_id2 : String)
      (cs2 cv2 : Option String) (now2 : Int),
      (token (redis_delete store code) clients2 g2 r2 code client_id2 cs2 cv2 now2).2 =
        TokenResponse.httpError 400 "Invalid or expired code" := by
  refine ⟨token_store_after_hit store clients g r code client_id cs cv now data hget, ?_⟩
  intro clients2 g2 r2 client_id2 cs2 cv2 now2
  exact token_miss_is_invalid_grant _ clients2 g2 r2 code client_id2 cs2 cv2 now2
    (redis_get_delete_self store code now2)

/-- Witness for C10: a call rejected for a wrong client id has still
consumed the code, and the corrected retry is INVALID_GRANT. -/
theorem C10_code_consumed_on_read_witness :
    ((token ⟨[("c9", ⟨"cid", "http://cb", "x", "u@example.com", "TRIAL", "Org"⟩, 600)]⟩ []
        none none "c9" "other" none none 0).1 =
      redis_delete ⟨[("c9", ⟨"cid", "http://cb", "x", "u@example.com", "TRIAL", "Org"⟩, 600)]⟩ "c9") ∧
    (token (redis_delete ⟨[("c9", ⟨"cid", "http://cb", "x", "u@example.com", "TRIAL", "Org"⟩, 600)]⟩
          "c9") [] none none "c9" "cid" none none 1).2 =
      TokenResponse.httpError 400 "Invalid or expired code" :=
  ⟨(C10_code_consumed_on_read _ [] none none "c9" "other" none none 0
      (⟨"cid", "http://cb", "x", "u@example.com", "TRIAL", "Org"⟩ : AuthCodeData) (by decide)).1,
    (C10_code_consumed_on_read _ [] none none "c9" "other" none none 0
      (⟨"cid", "http://cb", "x", "u@example.com", "TRIAL", "Org"⟩ : AuthCodeData) (by decide)).2 [] none none "cid" none none 1⟩

/-- Splitting at the first colon of a list that holds one reassembles the
list, and the first component holds no colon. -/
theorem splitFirstColon_spec (l : List Char) (h : l.contains ':' = true) :
    l = (splitFirstColon l).1 ++ ':' :: (splitFirstColon l).2 ∧ ':' ∉ (splitFirstColon l).1 := by
  induction l with
  | nil => simp at h
  | cons c t ih =>
    by_cases hc : c = ':'
    · subst hc
      simp [splitFirstColon]
    · have ht : t.contains ':' = true := by
        simp only [List.contains_cons] at h
        rcases Bool.or_eq_true_iff.mp h with h1 | h1
        · exact absurd (beq_iff_eq.mp h1) (fun he => hc he.symm)
        · exact h1
      obtain ⟨h1, h2⟩ := ih ht
      have hck : (c ≠ ':') = True := by simp [hc]
      constructor
      · conv_lhs => rw [h1]
        simp [splitFirstColon, hc]
      · simp [splitFirstColon, hc]
        constructor
        · exact fun he => hc he.symm
        · simpa [splitFirstColon] using h2

/-- C7 counterexample: a protected-path request presenting a bearer token
that verifies to a subject holding the gate permission is forwarded by the
gateway the spec describes, but the implemented middleware rejects it 401:
it demands HTTP Basic credentials and never evaluates token validity or a
permission. -/
theorem C7_counterexample :
    isProtectedPath "/mcp" = true ∧
    specGatewayDispatch (fun tok => if tok = "goodtoken" then some "user@example.com" else none)
        (fun _ => true) (some "Bearer goodtoken") = GatewayResult.forward "user@example.com" ∧
    AuthenticationMiddleware.dispatch "/mcp" (some "Bearer goodtoken") =
      DispatchResult.reject 401 missingAuthMsg := by
  refine ⟨by decide, ?_, by decide⟩
  rfl

/-- C7 as amended: on protected paths the middleware implements HTTP Basic
credential extraction, not bearer-token verification: every rejection has
status 401 (no FORBIDDEN outcome exists), a missing or non-Basic header is
rejected 401 with the fixed message, and decodable credentials holding a
colon are forwarded split at the first colon into access key and secret,
with no verification and no permission lookup. -/
theorem C7_basic_auth_middleware :
    (∀ (path : String) (hdr : Option String) (st : Nat) (msg : String),
      AuthenticationMiddleware.dispatch path hdr = DispatchResult.reject st msg → st = 401) ∧
    (∀ (path : String) (hdr : Option String), isProtectedPath path = true →
      pyStartsWith (hdr.getD "") "Basic " = false →
      AuthenticationMiddleware.dispatch path hdr = DispatchResult.reject 401 missingAuthMsg) ∧
    (∀ (path h d : String), isProtectedPath path = true →
      pyStartsWith h "Basic " = true →
      decodeBasicCreds (pyReplace h "Basic " "") = some d →
      d.toList.contains ':' = true →
      ∃ k s, AuthenticationMiddleware.dispatch path (some h) =
          DispatchResult.forward (String.mk k) (String.mk s) ∧
        d.toList = k ++ ':' :: s ∧ ':' ∉ k) := by
  refine ⟨?_, ?_, ?_⟩
  · intro path hdr st msg hd
    unfold AuthenticationMiddleware.dispatch at hd
    by_cases hp : isProtectedPath path
    · by_cases hb : pyStartsWith (hdr.getD "") "Basic "
      · cases hdc : decodeBasicCreds (pyReplace (hdr.getD "") "Basic " "") with
        | none =>
          simp [hp, hb, hdc] at hd
          exact hd.1.symm
        | some decoded =>
          by_cases hcl : (':' ∈ decoded.data)
          · simp [hp, hb, hdc, hcl] at hd
          · simp [hp, hb, hdc, hcl] at hd
            exact hd.1.symm
      · simp [hp, hb] at hd
        exact hd.1.symm
    · simp [hp] at hd
  · intro path hdr hp hnb
    unfold AuthenticationMiddleware.dispatch
    simp [hp, hnb]
  · intro path h d hp hb hdec hcolon
    have hcolon2 : ':' ∈ d.data := by simpa [String.toList] using hcolon
    refine ⟨(splitFirstColon d.toList).1, (splitFirstColon d.toList).2, ?_,
      (splitFirstColon_spec d.toList hcolon).1, (splitFirstColon_spec d.toList hcolon).2⟩
    unfold AuthenticationMiddleware.dispatch
    simp [hp, hb, hdec, hcolon2]

/-- Witness for C7 as amended: a missing header is rejected 401, and the
Basic credentials `a:b` are forwarded as key `a`, secret `b`. -/
theorem C7_basic_auth_middleware_witness :
    AuthenticationMiddleware.dispatch "/mcp" none = DispatchResult.reject 401 missingAuthMsg ∧
    ∃ k s, AuthenticationMiddleware.dispatch "/mcp" (some "Basic YTpi") =
        DispatchResult.forward (String.mk k) (String.mk s) ∧
      "a:b".toList = k ++ ':' :: s ∧ ':' ∉ k :=
  ⟨C7_basic_auth_middleware.2.1 "/mcp" none (by decide) (by decide),
    C7_basic_auth_middleware.2.2 "/mcp" "Basic YTpi" "a:b" (by decide) (by decide)
      (by decide) (by decide)⟩

/-- C8: tier resolution handles a missing user (fallback tier) and a
matching `user_type:` group, but a user whose groups hold no `user_type:`
name makes the comparison read an unassigned loop variable and raise
UnboundLocalError (modelled as `none`) instead of returning the configured
fallback tier. -/
theorem C8_tier_resolution_not_total :
    get_user_tier (some ["staff"]) = none ∧
    get_user_tier (some []) = none ∧
    get_user_tier none = some "enterprise" ∧
    get_user_tier (some ["user_type:student"]) = some "student" ∧
    get_user_tier (some ["user_type:enterprise"]) = some "enterprise" := by
  refine ⟨by decide, by decide, by decide, by decide, by decide⟩

end GongMCP
